import Mathlib

/-!
Formal model of the analytics-and-alerting core of the gold price tracker
(`src/streamlit_app.py`).  Prices are modelled as rationals, the exchange-rate
dictionary as an association list from currency code to rate, and Python
exceptions (IndexError on a too-short series, KeyError on a missing rate) as
an `Except` error value.  Division of pandas float64 scalars by zero does not
raise in Python (it yields inf/NaN with a runtime warning), so division is
modelled as total rational division, whose value at a zero denominator is the
Lean convention `q / 0 = 0`; what matters for the theorems below is only that
no error is produced on that path.
-/

namespace GoldTracker

/-- Error kinds surfaced by the core: a series too short for the requested
metric (Python IndexError), a rate missing from the exchange-rate table
(Python KeyError), and the spec's division-by-zero failure used by the
spec-modelled volume analytics. -/
inductive AppError where
  | insufficientData
  | missingRate
  | divisionByZero
  deriving DecidableEq, Repr

/-- Exchange-rate table: association list from currency code to the rate
"1 USD = rate units of that currency", modelling the Python dict returned by
`get_exchange_rates`. -/
abbrev RateTable := List (String × ℚ)

/-- Two-decimal fixed-point rendering of a price, modelling the Python format
spec `:.2f` used in the alert messages (rounding to the nearest hundredth,
computed on the numerator/denominator so it is executable). -/
def fmt2 (q : ℚ) : String :=
  let c : ℤ := (2 * q.num * 100 + q.den) / (2 * (q.den : ℤ))
  let m := c.natAbs
  let sign := if c < 0 then "-" else ""
  let fp := m % 100
  sign ++ toString (m / 100) ++ "." ++ (if fp < 10 then "0" else "") ++ toString fp

/-- Message produced for a triggered below-threshold alert
(`streamlit_app.py` line 73). -/
def price_fell_msg (symbol : String) (price : ℚ) : String :=
  "Price fell below " ++ symbol ++ fmt2 price

/-- Message produced for a triggered above-threshold alert
(`streamlit_app.py` line 75). -/
def price_rose_msg (symbol : String) (price : ℚ) : String :=
  "Price rose above " ++ symbol ++ fmt2 price

/-- Embedding of `convert_price` (`streamlit_app.py` lines 27-36): USD is
returned unchanged with symbol `$`, EUR multiplies by the EUR rate, and the
final `else` branch treats every other currency as NPR.  A dict access on a
missing key raises KeyError, modelled as `.error .missingRate`. -/
def convert_price (price_usd : ℚ) (target_currency : String)
    (exchange_rates : RateTable) : Except AppError (ℚ × String) :=
  if target_currency = "USD" then
    .ok (price_usd, "$")
  else if target_currency = "EUR" then
    match exchange_rates.lookup "EUR" with
    | some r => .ok (price_usd * r, "€")
    | none => .error .missingRate
  else
    match exchange_rates.lookup "NPR" with
    | some r => .ok (price_usd * r, "रू")
    | none => .error .missingRate

/-- The last close of the series, `df['Close'][-1]` (line 52). -/
def last_close (close : List ℚ) : ℚ :=
  close.getD (close.length - 1) 0

/-- The 1-period change, `((current_price_usd - df['Close'][-2]) /
df['Close'][-2]) * 100` (line 56). -/
def one_day_change (close : List ℚ) : ℚ :=
  (last_close close - close.getD (close.length - 2) 0) /
    close.getD (close.length - 2) 0 * 100

/-- The 10-period reference price, `df['Close'][-11] if len(df) >= 11 else
df['Close'][0]` (line 58). -/
def ten_day_price (close : List ℚ) : ℚ :=
  if 11 ≤ close.length then close.getD (close.length - 11) 0 else close.getD 0 0

/-- The 10-period change (line 59). -/
def ten_day_change (close : List ℚ) : ℚ :=
  (last_close close - ten_day_price close) / ten_day_price close * 100

/-- The window-start ("1-month") change, referencing `df['Close'][0]`
(lines 61-62). -/
def month_change (close : List ℚ) : ℚ :=
  (last_close close - close.getD 0 0) / close.getD 0 0 * 100

/-- Embedding of `calculate_price_changes` (lines 48-64) over the `Close`
column.  The source indexes `df['Close'][-1]` (IndexError on an empty series),
converts the current price (KeyError possible), then indexes `df['Close'][-2]`
(IndexError when the series has fewer than two rows); the remaining
arithmetic is total. -/
def calculate_price_changes (close : List ℚ) (exchange_rates : RateTable)
    (currency : String) : Except AppError (ℚ × String × ℚ × ℚ × ℚ) :=
  if close.length = 0 then .error .insufficientData
  else
    match convert_price (last_close close) currency exchange_rates with
    | .error e => .error e
    | .ok (current_price, symbol) =>
      if close.length < 2 then .error .insufficientData
      else
        .ok (current_price, symbol, one_day_change close, ten_day_change close,
          month_change close)

/-- An alert definition as stored in the session state: a threshold price and
a direction string, `'above'` or `'below'`. -/
structure Alert where
  price : ℚ
  type : String
  deriving DecidableEq, Repr

/-- Embedding of `check_price_alerts` (lines 66-76): one pass over the alert
list, appending a "fell below" message when `price['price'] >= current_price`
and the type is `'below'`, else a "rose above" message when
`price['price'] <= current_price` and the type is `'above'`. -/
def check_price_alerts (current_price : ℚ) (alert_prices : List Alert)
    (symbol : String) : List String :=
  match alert_prices with
  | [] => []
  | a :: rest =>
    (if a.price ≥ current_price ∧ a.type = "below" then
      [price_fell_msg symbol a.price]
    else if a.price ≤ current_price ∧ a.type = "above" then
      [price_rose_msg symbol a.price]
    else []) ++ check_price_alerts current_price rest symbol

/-- Firing predicate written from the spec's words (§4.3): a BELOW alert
fires exactly when `current_price ≤ alert.price`, an ABOVE alert exactly when
`current_price ≥ alert.price`. -/
def alert_fires (current_price : ℚ) (a : Alert) : Bool :=
  (a.type == "below" && decide (current_price ≤ a.price)) ||
  (a.type == "above" && decide (a.price ≤ current_price))

/-- The message the spec assigns to a firing alert. -/
def alert_message (symbol : String) (a : Alert) : String :=
  if a.type == "below" then price_fell_msg symbol a.price
  else price_rose_msg symbol a.price

/-- One row of the fetched table, restricted to the columns the core reads. -/
structure PricePoint where
  timestamp : ℕ
  close : ℚ
  volume : ℕ
  deriving DecidableEq, Repr

/-- Embedding of the series projection in `main` (lines 213-215): copy the
frame and, for a non-USD currency, overwrite the `Close` column with
`df['Close'] * exchange_rates[currency_code]`; other columns are untouched.
The dict access models KeyError as `.error .missingRate`. -/
def project (series : List PricePoint) (currency : String)
    (exchange_rates : RateTable) : Except AppError (List PricePoint) :=
  if currency = "USD" then .ok series
  else
    match exchange_rates.lookup currency with
    | some r => .ok (series.map fun p => { p with close := p.close * r })
    | none => .error .missingRate

/-- Embedding of the orchestration in `main` (lines 146 and 175-177): compute
the metrics, then evaluate the alerts against the *converted* current price
and symbol returned by the metrics calculator. -/
def run_alert_check (close : List ℚ) (exchange_rates : RateTable)
    (currency : String) (alerts : List Alert) : Except AppError (List String) :=
  match calculate_price_changes close exchange_rates currency with
  | .error e => .error e
  | .ok (current_price, symbol, _, _, _) =>
    .ok (check_price_alerts current_price alerts symbol)

/-- Arithmetic mean of a list of rationals. -/
def mean (xs : List ℚ) : ℚ :=
  xs.sum / xs.length

/-- Result record of the spec's volume analytics. -/
structure VolumeMetrics where
  current : ℚ
  average : ℚ
  changePct : ℚ
  ratioVsAverage : ℚ
  deriving DecidableEq, Repr

/-- Modelled from the spec: `src/streamlit_app.py` contains no volume
analytics (only the `Close` column is read), so §4.2's volume sub-metrics are
taken from the spec's words: `current_volume = volume[n-1]`,
`average_volume = mean(volume)`, `volume_change_pct` analogous to the
1-period price change (requires `n ≥ 2`, `DivisionByZero` on a zero
reference), and `volume_ratio_vs_average = (current/average - 1) * 100`
(`DivisionByZero` when the average is 0). -/
def volume_metrics (volume : List ℚ) : Except AppError VolumeMetrics :=
  if volume.length < 2 then .error .insufficientData
  else
    let current := volume.getD (volume.length - 1) 0
    let avg := mean volume
    let prev := volume.getD (volume.length - 2) 0
    if prev = 0 then .error .divisionByZero
    else if avg = 0 then .error .divisionByZero
    else .ok ⟨current, avg, (current - prev) / prev * 100, (current / avg - 1) * 100⟩

/-- Modelled from the spec: the trailing moving average of §4.2,
`MA_k[i] = mean(volume[i-k+1..i])` for `i ≥ k-1` and `i` inside the series,
absent (`none`) for earlier indices. -/
def volume_moving_average (k : ℕ) (volume : List ℚ) (i : ℕ) : Option ℚ :=
  if k ≤ i + 1 ∧ i < volume.length then
    some (mean ((volume.drop (i + 1 - k)).take k))
  else none

/-- C1: for every alert list and every current price, the alert evaluator
returns exactly the messages of the alerts whose condition holds, in input
order: a `below` alert fires iff `current_price ≤ alert.price` producing the
"Price fell below" message, an `above` alert fires iff
`current_price ≥ alert.price` (boundary inclusive) producing the "Price rose
above" message, and non-firing alerts contribute nothing. -/
theorem check_price_alerts_eq_filter_map (current_price : ℚ)
    (alerts : List Alert) (symbol : String) :
    check_price_alerts current_price alerts symbol =
      (alerts.filter (alert_fires current_price)).map (alert_message symbol) := by
  induction alerts with
  | nil => rfl
  | cons a rest ih =>
    have hba : ("below" : String) ≠ "above" := by decide
    rcases eq_or_ne a.type "below" with hb | hb
    · by_cases h1 : current_price ≤ a.price <;>
        simp [check_price_alerts, alert_fires, alert_message, List.filter_cons, hb, h1, ih,
          hba, ge_iff_le, beq_iff_eq]
    · rcases eq_or_ne a.type "above" with ha | ha
      · by_cases h2 : a.price ≤ current_price <;>
          simp [check_price_alerts, alert_fires, alert_message, List.filter_cons, ha, h2, ih,
            hba.symm, ge_iff_le, beq_iff_eq]
      · simp [check_price_alerts, alert_fires, alert_message, List.filter_cons, hb, ha, ih,
          beq_iff_eq]

/-- C2: for every non-empty series with non-zero reference price, the
10-period change references index `n-11` when `n ≥ 11` and index `0` when
`n < 11`, computing `(last - close[ref]) / close[ref] * 100`; consequently,
for `1 ≤ n < 11` the 10-period change coincides with the window-start
change. -/
theorem ten_day_change_clamps_to_window_start (close : List ℚ)
    (hn : 1 ≤ close.length) (href : ten_day_price close ≠ 0) :
    (11 ≤ close.length →
      ten_day_change close =
        (last_close close - close.getD (close.length - 11) 0) /
          close.getD (close.length - 11) 0 * 100) ∧
    (close.length < 11 →
      ten_day_change close =
        (last_close close - close.getD 0 0) / close.getD 0 0 * 100) ∧
    (close.length < 11 → ten_day_change close = month_change close) := by
  refine ⟨fun h => ?_, fun h => ?_, fun h => ?_⟩ <;>
    simp [ten_day_change, ten_day_price, month_change, h, Nat.not_le.mpr h]

/-- Witness for C2 at the spec's own example series (`n = 5 < 11`). -/
theorem ten_day_change_clamps_to_window_start_witness :
    1 ≤ ([1700, 1720, 1750, 1740, 1760] : List ℚ).length ∧
    ten_day_price [1700, 1720, 1750, 1740, 1760] ≠ 0 ∧
    ten_day_change [1700, 1720, 1750, 1740, 1760] =
      month_change [1700, 1720, 1750, 1740, 1760] := by
  have hp : ten_day_price [1700, 1720, 1750, 1740, 1760] ≠ 0 := by
    norm_num [ten_day_price]
  exact ⟨by decide, hp,
    (ten_day_change_clamps_to_window_start [1700, 1720, 1750, 1740, 1760]
      (by decide) hp).2.2 (by decide)⟩

/-- C3 counterexample: `"GBP"` is neither `"USD"` nor present in the rate
table `[EUR ↦ 93/100, NPR ↦ 132]`, yet `convert_price` does not fail: the
final `else` branch converts it with the NPR rate and the NPR symbol. -/
theorem convert_price_accepts_unknown_currency :
    (("GBP" : String) == "USD") = false ∧
    (List.lookup "GBP" ([("EUR", 93/100), ("NPR", 132)] : RateTable)).isNone = true ∧
    convert_price 100 "GBP" [("EUR", 93/100), ("NPR", 132)] = .ok (13200, "रू") := by
  refine ⟨by decide, by simp [List.lookup], ?_⟩
  simp [convert_price, List.lookup]
  norm_num

/-- C3 amended: a target currency that is neither `"USD"` nor `"EUR"` is
converted with the NPR rate and the NPR symbol; the converter fails (with the
KeyError modelled as a missing rate) exactly when the NPR rate itself is
absent from the table — it does not reject unsupported currency codes. -/
theorem convert_price_unknown_uses_npr (amount : ℚ) (target : String)
    (rates : RateTable) (hUsd : target ≠ "USD") (hEur : target ≠ "EUR") :
    (rates.lookup "NPR" = none →
      convert_price amount target rates = .error .missingRate) ∧
    (∀ r : ℚ, rates.lookup "NPR" = some r →
      convert_price amount target rates = .ok (amount * r, "रू")) := by
  constructor
  · intro h
    simp [convert_price, hUsd, hEur, h]
  · intro r h
    simp [convert_price, hUsd, hEur, h]

/-- Witness for C3's amended statement at `"GBP"`, with and without an NPR
rate in the table. -/
theorem convert_price_unknown_uses_npr_witness :
    convert_price 100 "GBP" [("NPR", 132)] = .ok (13200, "रू") ∧
    convert_price 100 "GBP" [] = .error .missingRate := by
  constructor
  · have h := (convert_price_unknown_uses_npr 100 "GBP" [("NPR", 132)]
      (by decide) (by decide)).2 132 (by simp [List.lookup])
    rw [h]
    norm_num
  · exact (convert_price_unknown_uses_npr 100 "GBP" [] (by decide) (by decide)).1 rfl

/-- C4 counterexample: on the series `[0, 100]` the 1-period, 10-period and
window-start references are all the zero close `close[0]`, yet the calculator
does not fail: pandas float64 scalars divide by zero without raising (the
quotient is an IEEE infinity, here the rational convention value), so the
computation returns a normal result. -/
theorem zero_reference_close_returns_ok :
    calculate_price_changes [0, 100] [] "USD" =
      .ok (100, "$", 0, 0, 0) := by
  simp [calculate_price_changes, convert_price, last_close, one_day_change,
    ten_day_price, ten_day_change, month_change]

/-- C4 amended: a zero reference close does not make the calculator fail with
`DivisionByZero` — there is no such check in the code; whenever the series has
at least two points and the currency conversion succeeds, the calculator
returns a normal result (whose division-by-zero quotients are IEEE
infinities/NaNs in the implementation). -/
theorem zero_reference_close_does_not_fail (close : List ℚ) (rates : RateTable)
    (currency : String) (p : ℚ × String) (h2 : 2 ≤ close.length)
    (hconv : convert_price (last_close close) currency rates = .ok p)
    (hzero : close.getD (close.length - 2) 0 = 0 ∨ ten_day_price close = 0 ∨
      close.getD 0 0 = 0) :
    calculate_price_changes close rates currency =
      .ok (p.1, p.2, one_day_change close, ten_day_change close,
        month_change close) := by
  obtain ⟨cp, sym⟩ := p
  have h0 : ¬ close.length = 0 := by omega
  have h2n : ¬ close.length < 2 := by omega
  simp [calculate_price_changes, h0, h2n, hconv]

/-- Witness for C4's amended statement at the series `[0, 100]`, whose
window-start reference `close[0]` is zero. -/
theorem zero_reference_close_does_not_fail_witness :
    2 ≤ ([0, 100] : List ℚ).length ∧
    ([0, 100] : List ℚ).getD 0 0 = 0 ∧
    calculate_price_changes [0, 100] [] "USD" =
      .ok (100, "$", one_day_change [0, 100], ten_day_change [0, 100],
        month_change [0, 100]) := by
  refine ⟨by decide, by decide, ?_⟩
  exact zero_reference_close_does_not_fail [0, 100] [] "USD" (100, "$")
    (by decide) rfl (Or.inr (Or.inr (by decide)))

/-- C5: with the currency conversion succeeding, a series of fewer than two
points makes the calculator fail (the IndexError on `df['Close'][-2]`,
i.e. insufficient data), and on a series of at least two points with
`close[n-2] ≠ 0` the returned 1-period change is
`(close[n-1] - close[n-2]) / close[n-2] * 100`. -/
theorem one_day_change_contract (close : List ℚ) (rates : RateTable)
    (currency : String) (p : ℚ × String)
    (hconv : convert_price (last_close close) currency rates = .ok p) :
    (close.length < 2 →
      calculate_price_changes close rates currency = .error .insufficientData) ∧
    (2 ≤ close.length → close.getD (close.length - 2) 0 ≠ 0 →
      calculate_price_changes close rates currency =
        .ok (p.1, p.2,
          (close.getD (close.length - 1) 0 - close.getD (close.length - 2) 0) /
            close.getD (close.length - 2) 0 * 100,
          ten_day_change close, month_change close)) := by
  obtain ⟨cp, sym⟩ := p
  constructor
  · intro h
    by_cases h0 : close.length = 0
    · simp [calculate_price_changes, h0]
    · simp [calculate_price_changes, h0, hconv, h]
  · intro h hnz
    have h0 : ¬ close.length = 0 := by omega
    have h2n : ¬ close.length < 2 := by omega
    unfold calculate_price_changes
    rw [if_neg h0, hconv]
    simp [h2n, one_day_change, last_close]

/-- Witness for C5 at the spec's example series (second part) and at a
one-point series (first part). -/
theorem one_day_change_contract_witness :
    calculate_price_changes [1700, 1720, 1750, 1740, 1760] [] "USD" =
      .ok (1760, "$", (1760 - 1740) / 1740 * 100,
        ten_day_change [1700, 1720, 1750, 1740, 1760],
        month_change [1700, 1720, 1750, 1740, 1760]) ∧
    calculate_price_changes [1700] [] "USD" = .error .insufficientData := by
  constructor
  · exact (one_day_change_contract [1700, 1720, 1750, 1740, 1760] [] "USD"
      (1760, "$") rfl).2 (by decide) (by norm_num)
  · exact (one_day_change_contract [1700] [] "USD" (1700, "$") rfl).1 (by decide)

/-- C6: converting to USD returns the amount unchanged with symbol `$`; a
supported non-USD currency (EUR or NPR with its rate in the table) returns the
amount multiplied by its rate with its symbol; and conversion is linear in the
amount — doubling the input doubles the output amount, same symbol. -/
theorem convert_price_supported_and_linear :
    (∀ (a : ℚ) (rates : RateTable), convert_price a "USD" rates = .ok (a, "$")) ∧
    (∀ (a : ℚ) (rates : RateTable) (r : ℚ), rates.lookup "EUR" = some r →
      convert_price a "EUR" rates = .ok (a * r, "€")) ∧
    (∀ (a : ℚ) (rates : RateTable) (r : ℚ), rates.lookup "NPR" = some r →
      convert_price a "NPR" rates = .ok (a * r, "रू")) ∧
    (∀ (a : ℚ) (cur : String) (rates : RateTable) (x : ℚ) (s : String),
      convert_price a cur rates = .ok (x, s) →
      convert_price (2 * a) cur rates = .ok (2 * x, s)) := by
  refine ⟨fun a rates => by simp [convert_price],
    fun a rates r h => by simp [convert_price, h],
    fun a rates r h => by simp [convert_price, h], ?_⟩
  intro a cur rates x s h
  by_cases hu : cur = "USD"
  · simp only [convert_price, hu, if_true, if_pos rfl] at h ⊢
    obtain ⟨hx, hs⟩ := by simpa using h
    subst hx; subst hs
    rfl
  · by_cases he : cur = "EUR"
    · cases hl : rates.lookup "EUR" with
      | none => simp [convert_price, hu, he, hl] at h
      | some r =>
        simp only [convert_price, hu, he, if_neg hu, if_pos rfl, hl] at h ⊢
        obtain ⟨hx, hs⟩ := by simpa using h
        subst hs
        simp [← hx]
        ring
    · cases hl : rates.lookup "NPR" with
      | none => simp [convert_price, hu, he, hl] at h
      | some r =>
        simp only [convert_price, hu, he, if_neg hu, if_neg he, hl] at h ⊢
        obtain ⟨hx, hs⟩ := by simpa using h
        subst hs
        simp [← hx]
        ring

/-- Witness for C6: a concrete EUR conversion and its doubled-amount
instance. -/
theorem convert_price_supported_and_linear_witness :
    convert_price 5 "EUR" [("EUR", 2)] = .ok (5 * 2, "€") ∧
    convert_price (2 * 5) "EUR" [("EUR", 2)] = .ok (2 * (5 * 2), "€") := by
  have h1 := convert_price_supported_and_linear.2.1 5 [("EUR", 2)] 2
    (by simp [List.lookup])
  exact ⟨h1, convert_price_supported_and_linear.2.2.2 5 "EUR" [("EUR", 2)]
    (5 * 2) "€" h1⟩

/-- C7: projecting a series to USD is the identity, and projecting to a
non-USD currency whose rate is in the table multiplies every close by that
rate while leaving every volume and every timestamp unchanged. -/
theorem project_scales_close_only :
    (∀ (series : List PricePoint) (rates : RateTable),
      project series "USD" rates = .ok series) ∧
    (∀ (series : List PricePoint) (currency : String) (rates : RateTable)
        (r : ℚ), currency ≠ "USD" → rates.lookup currency = some r →
      ∃ out : List PricePoint,
        project series currency rates = .ok out ∧
        out.map PricePoint.close = series.map (fun p => p.close * r) ∧
        out.map PricePoint.volume = series.map PricePoint.volume ∧
        out.map PricePoint.timestamp = series.map PricePoint.timestamp) := by
  constructor
  · intro series rates
    simp [project]
  · intro series currency rates r hne hl
    refine ⟨series.map (fun p => { p with close := p.close * r }), ?_, ?_, ?_, ?_⟩ <;>
      simp [project, hne, hl, Function.comp_def]

/-- Witness for C7: a two-point series projected to EUR at rate 2 and to
USD. -/
theorem project_scales_close_only_witness :
    project [⟨1, 10, 5⟩, ⟨2, 20, 7⟩] "USD" [] = .ok [⟨1, 10, 5⟩, ⟨2, 20, 7⟩] ∧
    (∃ out : List PricePoint,
      project [⟨1, 10, 5⟩, ⟨2, 20, 7⟩] "EUR" [("EUR", 2)] = .ok out ∧
      out.map PricePoint.close =
        ([⟨1, 10, 5⟩, ⟨2, 20, 7⟩] : List PricePoint).map (fun p => p.close * 2) ∧
      out.map PricePoint.volume =
        ([⟨1, 10, 5⟩, ⟨2, 20, 7⟩] : List PricePoint).map PricePoint.volume ∧
      out.map PricePoint.timestamp =
        ([⟨1, 10, 5⟩, ⟨2, 20, 7⟩] : List PricePoint).map PricePoint.timestamp) :=
  ⟨project_scales_close_only.1 [⟨1, 10, 5⟩, ⟨2, 20, 7⟩] [],
    project_scales_close_only.2 [⟨1, 10, 5⟩, ⟨2, 20, 7⟩] "EUR" [("EUR", 2)] 2
      (by decide) (by simp [List.lookup])⟩

/-- Inversion of a successful run of the calculator: the series has at least
two points, the head pair of the result is the converted current price and
symbol, and the tail triple is the three USD-denominated percentage
changes. -/
lemma calculate_price_changes_ok_inv (close : List ℚ) (rates : RateTable)
    (cur : String) (r : ℚ × String × ℚ × ℚ × ℚ)
    (h : calculate_price_changes close rates cur = .ok r) :
    2 ≤ close.length ∧
    convert_price (last_close close) cur rates = .ok (r.1, r.2.1) ∧
    r.2.2 = (one_day_change close, ten_day_change close, month_change close) := by
  unfold calculate_price_changes at h
  by_cases h0 : close.length = 0
  · simp [h0] at h
  · rw [if_neg h0] at h
    cases hc : convert_price (last_close close) cur rates with
    | error e => rw [hc] at h; simp at h
    | ok p =>
      obtain ⟨cp, sym⟩ := p
      rw [hc] at h
      by_cases h2 : close.length < 2
      · simp [h2] at h
      · simp only [h2, if_false, Except.ok.injEq] at h
        subst h
        exact ⟨by omega, rfl, rfl⟩

/-- C8: the three percentage-change metrics are computed from the
USD-denominated closes only — two successful runs of the calculator on the
same series and rate table that differ only in the selected currency return
identical 1-period, 10-period and window-start changes. -/
theorem percentage_changes_independent_of_currency (close : List ℚ)
    (rates : RateTable) (cur1 cur2 : String) (r1 r2 : ℚ × String × ℚ × ℚ × ℚ)
    (h1 : calculate_price_changes close rates cur1 = .ok r1)
    (h2 : calculate_price_changes close rates cur2 = .ok r2) :
    r1.2.2 = r2.2.2 := by
  rw [(calculate_price_changes_ok_inv close rates cur1 r1 h1).2.2,
    (calculate_price_changes_ok_inv close rates cur2 r2 h2).2.2]

/-- Witness for C8: the same series run with USD and with NPR (rate 132)
yields the same percentage-change triple. -/
theorem percentage_changes_independent_of_currency_witness :
    (((100 : ℚ), "$", one_day_change [90, 100], ten_day_change [90, 100],
        month_change [90, 100]) : ℚ × String × ℚ × ℚ × ℚ).2.2 =
      (((100 : ℚ) * 132, "रू", one_day_change [90, 100], ten_day_change [90, 100],
        month_change [90, 100]) : ℚ × String × ℚ × ℚ × ℚ).2.2 :=
  percentage_changes_independent_of_currency [90, 100] [("NPR", 132)]
    "USD" "NPR" _ _ rfl rfl

/-- C9 (against the spec-modelled volume analytics, absent from the source):
the metrics require at least two observations, fail with `DivisionByZero`
when the reference volume or the average volume is zero, and otherwise return
`current = volume[n-1]`, `average = mean volume`, the 1-period volume change
and `(current/average - 1) * 100`; trailing moving averages `MA_k` are absent
for indices `i < k-1` and, for `k-1 ≤ i < n`, average exactly the `k`
observations ending at index `i`. -/
theorem volume_metrics_follow_spec :
    (∀ v : List ℚ, v.length < 2 →
      volume_metrics v = .error .insufficientData) ∧
    (∀ v : List ℚ, 2 ≤ v.length → v.getD (v.length - 2) 0 = 0 →
      volume_metrics v = .error .divisionByZero) ∧
    (∀ v : List ℚ, 2 ≤ v.length → v.getD (v.length - 2) 0 ≠ 0 → mean v = 0 →
      volume_metrics v = .error .divisionByZero) ∧
    (∀ v : List ℚ, 2 ≤ v.length → v.getD (v.length - 2) 0 ≠ 0 → mean v ≠ 0 →
      volume_metrics v = .ok
        ⟨v.getD (v.length - 1) 0, mean v,
          (v.getD (v.length - 1) 0 - v.getD (v.length - 2) 0) /
            v.getD (v.length - 2) 0 * 100,
          (v.getD (v.length - 1) 0 / mean v - 1) * 100⟩) ∧
    (∀ (k i : ℕ) (v : List ℚ), i + 1 < k → volume_moving_average k v i = none) ∧
    (∀ (k i : ℕ) (v : List ℚ), k ≤ i + 1 → i < v.length →
      volume_moving_average k v i = some (mean ((v.drop (i + 1 - k)).take k)) ∧
      ((v.drop (i + 1 - k)).take k).length = k) := by
  refine ⟨?_, ?_, ?_, ?_, ?_, ?_⟩
  · intro v h
    simp [volume_metrics, h]
  · intro v h hz
    have h2 : ¬ v.length < 2 := by omega
    simp only [List.getD_eq_getElem?_getD] at hz
    simp [volume_metrics, h2, hz]
  · intro v h hnz havg
    have h2 : ¬ v.length < 2 := by omega
    simp [volume_metrics, h2, hnz, havg]
  · intro v h hnz havg
    have h2 : ¬ v.length < 2 := by omega
    simp only [List.getD_eq_getElem?_getD] at hnz
    simp [volume_metrics, h2, hnz, havg]
  · intro k i v h
    have hk : ¬ (k ≤ i + 1 ∧ i < v.length) := by omega
    simp [volume_moving_average, hk]
  · intro k i v hk hi
    refine ⟨by simp [volume_moving_average, hk, hi], ?_⟩
    simp [List.length_take, List.length_drop]
    omega

/-- Witness for C9 at the volume series `[10, 20]` and a moving-average
window of width 2. -/
theorem volume_metrics_follow_spec_witness :
    volume_metrics [10, 20] = .ok
      ⟨([10, 20] : List ℚ).getD 1 0, mean [10, 20],
        (([10, 20] : List ℚ).getD 1 0 - ([10, 20] : List ℚ).getD 0 0) /
          ([10, 20] : List ℚ).getD 0 0 * 100,
        (([10, 20] : List ℚ).getD 1 0 / mean [10, 20] - 1) * 100⟩ ∧
    volume_moving_average 2 [10, 20] 0 = none ∧
    volume_moving_average 2 [10, 20] 1 =
      some (mean ((([10, 20] : List ℚ).drop 0).take 2)) := by
  refine ⟨?_, ?_, ?_⟩
  · exact volume_metrics_follow_spec.2.2.2.1 [10, 20] (by decide) (by decide)
      (by norm_num [mean])
  · exact volume_metrics_follow_spec.2.2.2.2.1 2 0 [10, 20] (by decide)
  · exact (volume_metrics_follow_spec.2.2.2.2.2 2 1 [10, 20] (by decide)
      (by decide)).1

/-- C10: the alert check receives the currency-converted display price, not
the USD close — whenever the calculator succeeds, the orchestration evaluates
`check_price_alerts` at exactly the converted current price and symbol
returned by `convert_price` on the last close; concretely, on the series
`[90, 100]` with NPR rate 132, an `above 110` alert stays silent under USD
but fires under NPR, so two runs differing only in the currency trigger
different alerts. -/
theorem alerts_use_converted_display_price :
    (∀ (close : List ℚ) (rates : RateTable) (cur : String)
        (alerts : List Alert) (r : ℚ × String × ℚ × ℚ × ℚ),
      calculate_price_changes close rates cur = .ok r →
      convert_price (last_close close) cur rates = .ok (r.1, r.2.1) ∧
      run_alert_check close rates cur alerts =
        .ok (check_price_alerts r.1 alerts r.2.1)) ∧
    (run_alert_check [90, 100] [("EUR", 93/100), ("NPR", 132)] "USD"
        [⟨110, "above"⟩] = .ok [] ∧
     run_alert_check [90, 100] [("EUR", 93/100), ("NPR", 132)] "NPR"
        [⟨110, "above"⟩] = .ok [price_rose_msg "रू" 110]) := by
  constructor
  · intro close rates cur alerts r h
    refine ⟨(calculate_price_changes_ok_inv close rates cur r h).2.1, ?_⟩
    obtain ⟨cp, sym, d1, d10, dm⟩ := r
    simp [run_alert_check, h]
  · constructor
    · simp [run_alert_check, calculate_price_changes, convert_price,
        last_close, check_price_alerts]
      norm_num
    · simp [run_alert_check, calculate_price_changes, convert_price,
        last_close, check_price_alerts, List.lookup]
      norm_num

/-- Witness for C10's universal part at a concrete successful run. -/
theorem alerts_use_converted_display_price_witness :
    convert_price (last_close [90, 100]) "USD" [] = .ok (100, "$") ∧
    run_alert_check [90, 100] [] "USD" [⟨110, "above"⟩] =
      .ok (check_price_alerts 100 [⟨110, "above"⟩] "$") := by
  have h := alerts_use_converted_display_price.1 [90, 100] [] "USD"
    [⟨110, "above"⟩]
    (100, "$", one_day_change [90, 100], ten_day_change [90, 100],
      month_change [90, 100]) rfl
  exact ⟨h.1, h.2⟩

end GoldTracker
